import Mathlib

set_option maxRecDepth 8000

/-!
# Verification of the `streaming` token-vesting program

Shallow embedding of `src/programs/streaming/src/lib.rs` (an Anchor/Solana
escrow program) and proofs about it.

Modelling conventions:
* `Pubkey` is modelled as `ℕ`; `u64` as `ℕ` (the program does no `u64`
  arithmetic that can overflow: it only compares amounts and passes them
  through); `i64` as `ℤ`, with the two `i64` subtractions of the program
  wrapped by `wrap64` (two's-complement wraparound, as in a release/BPF build
  where overflow checks are off).
* The `f64` arithmetic of `available_for_withdrawal` is modelled exactly: an
  IEEE-754 binary64 value is the dyadic number `m * 2 ^ e` (structure `F64`),
  and every operation rounds its exact result to 53 significant bits with
  round-to-nearest, ties-to-even, including subnormal granularity below
  `2 ^ (-1022)`.  Overflow to infinity and NaN are not modelled: no value
  reachable from the program's `u64`/`i64` inputs comes near them (the one
  division is by a nonzero integer significand).
* The ledger (SPL token) transfer is an external collaborator: an operation's
  successful result carries the amount it transfers; an `Except.error` result
  models the aborted transaction, in which no account is mutated and no
  transfer happens.
-/

namespace Streaming

/-- Two's-complement wraparound of a 64-bit signed integer operation, as
performed by a release-mode Rust build (overflow checks off). -/
def wrap64 (x : ℤ) : ℤ := (x + 2 ^ 63) % 2 ^ 64 - 2 ^ 63

/-- Fuel-driven floor of the base-2 logarithm; `fuel ≥ log2 n` suffices. -/
def log2fuel : ℕ → ℕ → ℕ
  | 0, _ => 0
  | fuel + 1, n => if n < 2 then 0 else log2fuel fuel (n / 2) + 1

/-- `⌊log2 n⌋` for `n ≥ 1` (correct for every `n < 2 ^ 5000`, far beyond any
value reachable in this development). -/
def floorLog2 (n : ℕ) : ℕ := log2fuel 5000 n

/-- An IEEE-754 binary64 value, denoting the dyadic rational `m * 2 ^ e`.
The representation is not forced to be unique; the smart constructors below
always produce a correctly rounded 53-bit significand. -/
structure F64 where
  m : ℤ
  e : ℤ
  deriving DecidableEq

/-- `⌊log2 (n / d)⌋` for `n, d ≥ 1`. -/
def floorLogRat (n d : ℕ) : ℤ :=
  let e0 : ℤ := (floorLog2 n : ℤ) - (floorLog2 d : ℤ)
  -- correct the first estimate: decide whether n / d < 2 ^ e0
  let lt : Bool := if 0 ≤ e0 then n < d * 2 ^ e0.toNat else n * 2 ^ (-e0).toNat < d
  if lt then e0 - 1 else e0

/-- Correctly round the positive rational `(n / d) * 2 ^ e` (`n, d ≥ 1`) to
binary64: round to nearest, ties to even, 53-bit significand, minimum
exponent −1022 (values below it round on the fixed subnormal grid). -/
def roundPos (n d : ℕ) (e : ℤ) : F64 :=
  let E : ℤ := max (floorLogRat n d + e) (-1022)
  -- significand M = roundNE(n / d * 2 ^ s) at scale s, result M * 2 ^ (E - 52)
  let s : ℤ := e - E + 52
  let N : ℕ := if 0 ≤ s then n * 2 ^ s.toNat else n
  let D : ℕ := if 0 ≤ s then d else d * 2 ^ (-s).toNat
  let q : ℕ := N / D
  let r : ℕ := N % D
  let M : ℕ :=
    if 2 * r < D then q
    else if D < 2 * r then q + 1
    else if q % 2 = 0 then q else q + 1
  ⟨M, E - 52⟩

/-- Rust `v as f64` for a `u64` value (round to nearest, ties to even). -/
def ofNat64 (v : ℕ) : F64 :=
  if v = 0 then ⟨0, 0⟩ else roundPos v 1 0

/-- Rust `v as f64` for an `i64` value. -/
def ofInt64 (v : ℤ) : F64 :=
  if v < 0 then
    let r := ofNat64 v.natAbs
    ⟨-r.m, r.e⟩
  else ofNat64 v.toNat

/-- IEEE binary64 division `x / y` for `y ≠ 0` (exact quotient, correctly
rounded).  Division by zero (unreachable in this program, see
`withdrawal_delta_nonzero`) is given the dummy value `0`. -/
def fdiv (x y : F64) : F64 :=
  if x.m = 0 ∨ y.m = 0 then ⟨0, 0⟩
  else
    let r := roundPos x.m.natAbs y.m.natAbs (x.e - y.e)
    if (x.m < 0) ≠ (y.m < 0) then ⟨-r.m, r.e⟩ else r

/-- IEEE binary64 multiplication (exact product, correctly rounded). -/
def fmul (x y : F64) : F64 :=
  let p : ℤ := x.m * y.m
  if p = 0 then ⟨0, 0⟩
  else
    let r := roundPos p.natAbs 1 (x.e + y.e)
    if p < 0 then ⟨-r.m, r.e⟩ else r

/-- Rust `x as u64` on a finite `f64`: truncate toward zero, saturating at
the bounds of `u64` (negative values go to `0`). -/
def toU64 (x : F64) : ℕ :=
  if x.m ≤ 0 then 0
  else
    let v : ℕ := if 0 ≤ x.e then x.m.toNat * 2 ^ x.e.toNat else x.m.toNat / 2 ^ (-x.e).toNat
    min v (2 ^ 64 - 1)

/-- The program's error enum (`#[error] pub enum ErrorCode`). -/
inductive ErrorCode where
  | InvalidTimestamp
  | InvalidGod
  | InvalidVaultAuthority
  | InvalidDepositAmount
  | InvalidSchedule
  | InvalidWithdrawAmount
  deriving DecidableEq, Repr

/-- The fields of an SPL `TokenAccount` the program reads: its controlling
`owner` authority and its `mint`. -/
structure TokenAccount where
  owner : ℕ
  mint : ℕ
  deriving DecidableEq

/-- The persisted `Streaming` account (`#[account] pub struct Streaming`). -/
structure StreamingAccount where
  beneficiary : ℕ
  grantor : ℕ
  mint : ℕ
  vault : ℕ
  original_deposit_size : ℕ
  outstanding : ℕ
  created_ts : ℤ
  start_ts : ℤ
  end_ts : ℤ
  nonce : ℕ
  deriving DecidableEq

/-- `is_valid_schedule(start_ts, end_ts, current_time)`, translated from the
source.  The `i64` subtraction `start_ts - current_time` wraps on overflow
(`wrap64`), as in the release build. -/
def is_valid_schedule (start_ts end_ts current_time : ℤ) : Bool :=
  if end_ts ≤ start_ts then false
  else if wrap64 (start_ts - current_time) < 60 then false
  else true

/-- The `i64` value `delta = end_ts - current_ts` computed in the
interpolation branch of `available_for_withdrawal` (wrapping subtraction). -/
def withdrawalDelta (end_ts current_ts : ℤ) : ℤ := wrap64 (end_ts - current_ts)

/-- `available_for_withdrawal`, translated from the source.  The `Context`
argument of the Rust function is flattened to the four values it reads:
`streaming.original_deposit_size`, `streaming.start_ts`, `streaming.end_ts`
and `clock.unix_timestamp`.  The middle branch reproduces the `f64`
computation exactly: `rate = max_balance as f64 / delta as f64;
current = rate * delta as f64; current as u64`. -/
def available_for_withdrawal (max_balance : ℕ) (start_ts end_ts current_ts : ℤ) : ℕ :=
  if current_ts < start_ts then 0
  else if end_ts ≤ current_ts then max_balance
  else
    let delta : ℤ := withdrawalDelta end_ts current_ts
    let rate : F64 := fdiv (ofNat64 max_balance) (ofInt64 delta)
    let current : F64 := fmul rate (ofInt64 delta)
    toU64 current

/-- `available_for_withdrawal` reading its inputs from a `StreamingAccount`
and a clock, exactly as the Rust function reads them from its `Context`. -/
def availableFor (s : StreamingAccount) (now : ℤ) : ℕ :=
  available_for_withdrawal s.original_deposit_size s.start_ts s.end_ts now

/-- The `withdraw` entrypoint body (lines 42–57).  Anchor's account
constraints (`has_one = beneficiary`, `#[account(signer)] beneficiary`,
`has_one = vault`, the PDA seeds of `vault_authority`) are enforced by the
framework before this body runs and are not part of it.  A successful result
carries the (unchanged) streaming account together with the amount the body
transfers from the vault to the receiver; an error result models the aborted
transaction (no account mutated, no transfer). -/
def withdraw (s : StreamingAccount) (now : ℤ) (amount : ℕ) :
    Except ErrorCode (StreamingAccount × ℕ) :=
  if availableFor s now < amount then .error .InvalidWithdrawAmount
  else .ok (s, amount)

/-- Two sequential `withdraw` calls of the same `amount` at the same clock
time, the second acting on the account state the first one leaves behind. -/
def withdrawTwice (s : StreamingAccount) (now : ℤ) (amount : ℕ) :
    Except ErrorCode (StreamingAccount × ℕ) :=
  match withdraw s now amount with
  | .error e => .error e
  | .ok (s1, _) => withdraw s1 now amount

/-- `CreateStream::valid_vault_owner`: derive the vault authority from the
streaming account's key and the nonce (`Pubkey::create_program_address`,
an external primitive modelled by the function argument `derive`; it can
fail, hence `Option`) and require that the vault's recorded owner equal it. -/
def valid_vault_owner (derive : ℕ → ℕ → ℕ → Option ℕ)
    (programId streamingKey : ℕ) (vault : TokenAccount) (nonce : ℕ) :
    Except ErrorCode Unit :=
  match derive streamingKey nonce programId with
  | none => .error .InvalidVaultAuthority
  | some vaultAuthority =>
    if vault.owner ≠ vaultAuthority then .error .InvalidVaultAuthority
    else .ok ()

/-- The `create_stream` entrypoint, including its
`#[access_control(CreateStream::valid_vault_owner(&ctx, nonce))]` guard,
which runs before the body.  A successful result carries the freshly
written streaming account together with the deposit amount transferred from
the depositor into the vault; an error result models the aborted
transaction.  The handler writes every field except `vault`, which stays at
the zeroed value Anchor's `#[account(init)]` leaves in a fresh account. -/
def create_stream (derive : ℕ → ℕ → ℕ → Option ℕ)
    (programId streamingKey : ℕ) (vault : TokenAccount)
    (depositor_authority : ℕ) (clock : ℤ)
    (beneficiary : ℕ) (original_deposit_size : ℕ) (start_ts end_ts : ℤ) (nonce : ℕ) :
    Except ErrorCode (StreamingAccount × ℕ) :=
  match valid_vault_owner derive programId streamingKey vault nonce with
  | .error e => .error e
  | .ok () =>
    if original_deposit_size = 0 then .error .InvalidDepositAmount
    else if ! is_valid_schedule start_ts end_ts clock then .error .InvalidSchedule
    else
      .ok ({ beneficiary := beneficiary
             grantor := depositor_authority
             mint := vault.mint
             vault := 0
             original_deposit_size := original_deposit_size
             outstanding := original_deposit_size
             created_ts := clock
             start_ts := start_ts
             end_ts := end_ts
             nonce := nonce }, original_deposit_size)

/-- The streaming-account states reachable through the program: produced by a
successful `create_stream` and closed under successful `withdraw` calls. -/
inductive Reachable : StreamingAccount → Prop where
  | created
      {derive : ℕ → ℕ → ℕ → Option ℕ}
      {programId streamingKey : ℕ} {vault : TokenAccount}
      {depositor_authority : ℕ} {clock : ℤ} {beneficiary : ℕ}
      {original_deposit_size : ℕ} {start_ts end_ts : ℤ} {nonce : ℕ}
      {s : StreamingAccount} {amt : ℕ} :
      create_stream derive programId streamingKey vault depositor_authority clock
        beneficiary original_deposit_size start_ts end_ts nonce = .ok (s, amt) →
      Reachable s
  | withdrawn {s : StreamingAccount} {now : ℤ} {amount : ℕ}
      {s1 : StreamingAccount} {amt : ℕ} :
      Reachable s → withdraw s now amount = .ok (s1, amt) → Reachable s1

end Streaming

namespace Streaming

/-- **C1.** The claim says `available_for_withdrawal` performs forward linear
interpolation, returning `500000` for deposit `1000000` halfway through a
`1000`-second schedule.  The code instead derives a rate from the *remaining*
duration (`rate = max_balance / delta; current = rate * delta`), which
collapses to the full deposit: at `now = 500` it returns `1000000`, not the
claimed `500000` (the spec itself flags this formula as a defect, so the code,
not the claim, is wrong).  The boundary cases of the claim do hold: `0` before
`start_ts` and the full deposit at `end_ts`. -/
theorem vesting_midstream_returns_full_deposit :
    available_for_withdrawal 1000000 0 1000 500 = 1000000 ∧
      available_for_withdrawal 1000000 0 1000 (-1) = 0 ∧
      available_for_withdrawal 1000000 0 1000 1000 = 1000000 := by
  refine ⟨by decide, by decide, by decide⟩

/-- **C2.** `withdraw` fails with `InvalidWithdrawAmount` exactly when the
requested `amount` exceeds `available_for_withdrawal` at the current clock
time; and when the check passes, the operation succeeds, leaves the streaming
account unchanged, and transfers exactly `amount` (an error result models the
aborted transaction: no transfer, no state change). -/
theorem withdraw_invalid_amount_iff (s : StreamingAccount) (now : ℤ) (amount : ℕ) :
    (withdraw s now amount = .error .InvalidWithdrawAmount ↔ availableFor s now < amount)
    ∧ (¬ availableFor s now < amount → withdraw s now amount = .ok (s, amount)) := by
  unfold withdraw
  split <;> simp_all

/-- Witness for **C2**: a concrete over-withdrawal (fully vested amount is
`10`, request is `11`) fails with `InvalidWithdrawAmount`. -/
theorem withdraw_invalid_amount_iff_witness :
    withdraw ⟨1, 2, 3, 4, 10, 10, 0, 100, 200, 5⟩ 300 11 = .error .InvalidWithdrawAmount :=
  (withdraw_invalid_amount_iff ⟨1, 2, 3, 4, 10, 10, 0, 100, 200, 5⟩ 300 11).1.mpr (by decide)

/-- **C3** (as stated, with mathematical subtraction) is false: the `i64`
subtraction `start_ts - current_time` wraps on overflow in the release build,
so for `start_ts = 2^63 - 2`, `end_ts = 2^63 - 1`, `now = -63` the claim's
condition holds (`end_ts > start_ts` and `start_ts - now = 2^63 + 61 ≥ 60`)
yet the function rejects. -/
theorem is_valid_schedule_overflow_cex :
    ¬ (is_valid_schedule 9223372036854775806 9223372036854775807 (-63) = true ↔
        (9223372036854775806 : ℤ) < 9223372036854775807 ∧
          60 ≤ (9223372036854775806 : ℤ) - (-63 : ℤ)) := by
  decide

/-- **C3**, amended: for all inputs, `is_valid_schedule start_ts end_ts now`
returns `true` iff `end_ts > start_ts` and the *wrapping* 64-bit difference
`start_ts - now` is at least `60`; this coincides with the claim whenever the
mathematical difference fits in `i64`.  The function is pure (it is a plain
Lean function of its three arguments). -/
theorem is_valid_schedule_iff_wrapped (start_ts end_ts now : ℤ) :
    is_valid_schedule start_ts end_ts now = true ↔
      start_ts < end_ts ∧ 60 ≤ wrap64 (start_ts - now) := by
  unfold is_valid_schedule
  split_ifs with h1 h2 <;> simp <;> omega

/-- Witness for **C3**: a concrete in-range schedule (start one hundred
seconds away, positive duration) is accepted. -/
theorem is_valid_schedule_iff_wrapped_witness :
    is_valid_schedule 100 200 0 = true :=
  (is_valid_schedule_iff_wrapped 100 200 0).mpr (by decide)

/-- **C4.** `withdraw` never modifies any field of the streaming account:
every run either fails or returns the account exactly as it was (in
particular `outstanding` is never decremented, and the vested-amount
computation reads only `original_deposit_size`, `start_ts`, `end_ts` and the
clock, never the amount already withdrawn).  Consequently two sequential
withdrawals of the fully vested amount at the same timestamp both pass the
amount check (`withdrawTwice` succeeds). -/
theorem withdraw_never_mutates (s : StreamingAccount) (now : ℤ) (amount : ℕ) :
    (withdraw s now amount = .error .InvalidWithdrawAmount ∨
      withdraw s now amount = .ok (s, amount))
    ∧ withdrawTwice s now (availableFor s now) = .ok (s, availableFor s now) := by
  constructor
  · unfold withdraw
    split
    · exact .inl rfl
    · exact .inr rfl
  · unfold withdrawTwice withdraw
    simp

/-- **C5.** With the vault-authority precondition satisfied, `create_stream`
rejects a zero deposit with `InvalidDepositAmount`, whatever the rest of the
input is (the error result models the aborted transaction: no account
written, no transfer). -/
theorem create_stream_zero_deposit_rejected
    (derive : ℕ → ℕ → ℕ → Option ℕ) (programId streamingKey : ℕ)
    (vault : TokenAccount) (depositor_authority : ℕ) (clock : ℤ)
    (beneficiary : ℕ) (start_ts end_ts : ℤ) (nonce : ℕ) (a : ℕ)
    (hderive : derive streamingKey nonce programId = some a)
    (howner : vault.owner = a) :
    create_stream derive programId streamingKey vault depositor_authority clock
      beneficiary 0 start_ts end_ts nonce = .error .InvalidDepositAmount := by
  unfold create_stream valid_vault_owner
  rw [hderive]
  simp [howner]

/-- Witness for **C5**: a concrete zero-deposit creation attempt (with a
matching vault authority and a valid schedule) fails with
`InvalidDepositAmount`. -/
theorem create_stream_zero_deposit_rejected_witness :
    create_stream (fun _ _ _ => some 7) 11 12 ⟨7, 3⟩ 2 0 5 0 100 200 4
      = .error .InvalidDepositAmount :=
  create_stream_zero_deposit_rejected (fun _ _ _ => some 7) 11 12 ⟨7, 3⟩ 2 0 5 100 200 4 7
    rfl rfl

/-- **C6.** The `#[access_control]` vault-authority check runs before the
body of `create_stream`: whenever the derived authority does not match the
vault's recorded owner (or cannot be derived at all), the call fails with
`InvalidVaultAuthority` — for every deposit size (including `0`) and every
schedule (including invalid ones). -/
theorem create_stream_bad_vault_authority_rejected
    (derive : ℕ → ℕ → ℕ → Option ℕ) (programId streamingKey : ℕ)
    (vault : TokenAccount) (depositor_authority : ℕ) (clock : ℤ)
    (beneficiary : ℕ) (original_deposit_size : ℕ) (start_ts end_ts : ℤ) (nonce : ℕ)
    (h : ∀ a, derive streamingKey nonce programId = some a → vault.owner ≠ a) :
    create_stream derive programId streamingKey vault depositor_authority clock
      beneficiary original_deposit_size start_ts end_ts nonce
      = .error .InvalidVaultAuthority := by
  unfold create_stream valid_vault_owner
  cases hd : derive streamingKey nonce programId with
  | none => rfl
  | some a => simp [h a hd]

/-- Witness for **C6**: with an underivable vault authority, a zero deposit
and a backwards schedule, the reported error is still
`InvalidVaultAuthority` — the access-control check fires first. -/
theorem create_stream_bad_vault_authority_rejected_witness :
    create_stream (fun _ _ _ => none) 11 12 ⟨7, 3⟩ 2 0 5 0 200 100 4
      = .error .InvalidVaultAuthority :=
  create_stream_bad_vault_authority_rejected (fun _ _ _ => none) 11 12 ⟨7, 3⟩ 2 0 5 0 200 100 4
    (fun _a ha => Option.noConfusion ha)

/-- **C7** is false on the code: the vested amount is *not* non-decreasing
in `now`.  With deposit `1`, `start_ts = 0`, `end_ts = 100` (a valid
schedule), the `f64` remaining-duration formula yields `1` at `now = 36`
(`delta = 64`, exact arithmetic) but `0` at `now = 51` (`delta = 49`, where
`(1.0 / 49.0) * 49.0` rounds to just below `1` and truncates to `0`).  The
spec's intended monotone linear vesting is defeated by the formula the spec
itself flags as a defect. -/
theorem vesting_not_monotone :
    (36 : ℤ) ≤ 51 ∧
      available_for_withdrawal 1 0 100 36 = 1 ∧
      available_for_withdrawal 1 0 100 51 = 0 ∧
      ¬ available_for_withdrawal 1 0 100 36 ≤ available_for_withdrawal 1 0 100 51 := by
  refine ⟨by decide, by decide, by decide, by decide⟩

/-- **C8.** Every streaming-account state reachable through the program
(created by `create_stream`, then any number of `withdraw`s) satisfies
`outstanding ≤ original_deposit_size`: creation establishes it with equality
and `withdraw` leaves both fields untouched. -/
theorem reachable_outstanding_le_deposit {s : StreamingAccount} (h : Reachable s) :
    s.outstanding ≤ s.original_deposit_size := by
  induction h with
  | created hc =>
    unfold create_stream valid_vault_owner at hc
    split at hc
    · cases hc
    · split at hc
      · cases hc
      · split at hc
        · cases hc
        · simp only [Except.ok.injEq, Prod.mk.injEq] at hc
          obtain ⟨h1, -⟩ := hc
          subst h1
          exact Nat.le_refl _
  | withdrawn _ hw ih =>
    unfold withdraw at hw
    split at hw
    · cases hw
    · simp only [Except.ok.injEq, Prod.mk.injEq] at hw
      obtain ⟨h1, -⟩ := hw
      subst h1
      exact ih

/-- Witness for **C8**: the account produced by a concrete successful
`create_stream` (deposit `9`) satisfies the invariant. -/
theorem reachable_outstanding_le_deposit_witness :
    (⟨5, 2, 3, 0, 9, 9, 0, 100, 200, 4⟩ : StreamingAccount).outstanding ≤
      (⟨5, 2, 3, 0, 9, 9, 0, 100, 200, 4⟩ : StreamingAccount).original_deposit_size :=
  reachable_outstanding_le_deposit
    (@Reachable.created (fun _ _ _ => some 7) 11 12 ⟨7, 3⟩ 2 0 5 9 100 200 4
      ⟨5, 2, 3, 0, 9, 9, 0, 100, 200, 4⟩ 9 rfl)

/-- **C9.** A `withdraw` request of `amount = 0` always passes the
amount check and succeeds with a zero-amount transfer, for every stream
state and every clock time — in particular before `start_ts`, when nothing
is vested — because `0 > available_for_withdrawal(...)` is false for every
`u64` result. -/
theorem withdraw_zero_always_succeeds (s : StreamingAccount) (now : ℤ) :
    withdraw s now 0 = .ok (s, 0) := by
  unfold withdraw
  simp

/-- **C10** (as stated) is false: in the interpolation branch the divisor is
the *wrapping* `i64` difference, which is not always strictly positive.  With
`start_ts = now = -2^63` and `end_ts = 2^63 - 1` the branch is taken
(`now ≥ start_ts`, `now < end_ts`) yet `delta` wraps to `-1`. -/
theorem withdrawal_delta_not_positive_cex :
    ¬ ((-9223372036854775808 : ℤ) < -9223372036854775808) ∧
      (-9223372036854775808 : ℤ) < 9223372036854775807 ∧
      withdrawalDelta 9223372036854775807 (-9223372036854775808) = -1 := by
  refine ⟨by decide, by decide, by decide⟩

/-- **C10**, amended: whenever the interpolation branch is taken on `i64`
inputs, the divisor `delta` is *nonzero* — so the rate division is never a
division by zero — and it is strictly positive whenever the mathematical gap
`end_ts - now` is below `2^63` (every realistic schedule); for wider gaps it
wraps to a negative value. -/
theorem withdrawal_delta_nonzero (start_ts end_ts current_ts : ℤ)
    (hlo : -9223372036854775808 ≤ current_ts) (hhi : end_ts ≤ 9223372036854775807)
    (_hbranch1 : ¬ current_ts < start_ts) (hbranch2 : current_ts < end_ts) :
    withdrawalDelta end_ts current_ts ≠ 0 ∧
      (end_ts - current_ts < 2 ^ 63 → 0 < withdrawalDelta end_ts current_ts) := by
  unfold withdrawalDelta wrap64
  omega

/-- Witness for **C10**: a concrete mid-stream point (`end_ts = 200`,
`now = 150`, branch conditions satisfied) has a nonzero, positive divisor. -/
theorem withdrawal_delta_nonzero_witness :
    withdrawalDelta 200 150 ≠ 0 ∧
      ((200 : ℤ) - 150 < 2 ^ 63 → 0 < withdrawalDelta 200 150) :=
  withdrawal_delta_nonzero 100 200 150 (by decide) (by decide) (by decide) (by decide)

end Streaming
